import Mathlib

/-!
Shallow embedding of `src/backend/services/mystat_client.py` (class `APIClient`).

Modelling conventions:
* Python `Optional[T]` becomes `Option T`.
* Machine time `datetime.now().timestamp() * 1000` is modelled as an integer
  number of milliseconds; each evaluation of `is_token_expired` reads a fresh
  clock sample from an external clock oracle.
* Network effects (`requests.post` of `auth_user`, `requests.get` / `requests.post`
  of the dispatcher and the write accessors) are modelled by oracles inside an
  `Env`: the i-th HTTP request of a call receives `Env.httpResponses i`, and the
  i-th `auth_user` invocation returns `Env.authResults i`.
* `raise Exception(...)` becomes an error constructor of the result type.
* JSON payloads are not interpreted by the code under verification (callers
  deserialize), so a response body is carried as its raw text.
* Executions record a trace of `Event`s (login performed, HTTP request sent,
  `on_unauthorized` callback invoked) so that counting claims can be stated.
-/

structure LoginData where
  username : String
  password : String
deriving Repr, DecidableEq

structure AuthResponse where
  access_token : String
  refresh_token : String
  expires_in_access : Int
  expires_in_refresh : Int
  user_type : Int
deriving Repr, DecidableEq

structure AuthError where
  field : String
  message : String
deriving Repr, DecidableEq

/-- Outcome of `auth_user`: either an `AuthResponse` or the list of field errors
(the provider answers with a JSON array on failure). -/
abbrev AuthResult := Sum AuthResponse (List AuthError)

structure ClientConfig where
  login_data : LoginData
  language : String
  cache : Option String
  access_token : Option String
  token_expires_at : Option Int
  group_id : Option Int
  /-- whether an `on_unauthorized` callback is configured (`None` vs a callable) -/
  on_unauthorized : Bool
deriving Repr, DecidableEq

structure ClientData where
  login_data : LoginData
  language : String
  cache : Option String
  access_token : String
  token_expires_at : Int
  group_id : Option Int
deriving Repr, DecidableEq

/-- Python truthiness of an `Optional[str]`: `None` and `""` are falsy. -/
def strTruthy : Option String → Bool
  | none => false
  | some s => s ≠ ""

/-- Python truthiness of an `Optional[int]`: `None` and `0` are falsy. -/
def intTruthy : Option Int → Bool
  | none => false
  | some n => n ≠ 0

/-- Model of `APIClient.initialize` (named `initializeClient` here): adopt a pre-supplied token when
`config.access_token and config.token_expires_at` is truthy, otherwise log in
with the outcome `auth`; a list outcome raises (`Except.error`), leaving
`client_data` unassigned.  On success the new `client_data` is returned. -/
def initializeClient (cfg : ClientConfig) (auth : AuthResult) :
    Except (List AuthError) ClientData :=
  if strTruthy cfg.access_token && intTruthy cfg.token_expires_at then
    .ok { login_data := cfg.login_data
          language := cfg.language
          cache := cfg.cache
          access_token := cfg.access_token.getD ""
          token_expires_at := cfg.token_expires_at.getD 0
          group_id := cfg.group_id }
  else
    match auth with
    | .inr errs => .error errs
    | .inl user =>
        .ok { login_data := cfg.login_data
              language := if cfg.language = "" then "en" else cfg.language
              cache := cfg.cache
              access_token := user.access_token
              token_expires_at := user.expires_in_access * 1000
              group_id := cfg.group_id }

/-- Model of `APIClient.is_token_expired`: true when `client_data` is `None`, else
compares the current clock sample (milliseconds) against the stored expiry. -/
def is_token_expired (cd : Option ClientData) (now_ms : Int) : Bool :=
  match cd with
  | none => true
  | some c => now_ms ≥ c.token_expires_at

/-- Model of `APIClient.update_token` acting on the session: a list outcome raises;
a successful login overwrites `access_token` and `token_expires_at` of the
existing `client_data` (and does nothing when `client_data` is `None`). -/
def update_token (cd : Option ClientData) (auth : AuthResult) :
    Except (List AuthError) (Option ClientData) :=
  match auth with
  | .inr errs => .error errs
  | .inl user =>
      .ok (match cd with
        | some c => some { c with
            access_token := user.access_token
            token_expires_at := user.expires_in_access * 1000 }
        | none => none)

/-- One HTTP response as the dispatcher observes it: the status code and the
raw body text (`response.text`; `response.json()` is the parsed form of the
same body and is carried as the text). -/
structure HttpResponse where
  status_code : Int
  text : String
deriving Repr, DecidableEq

/-- Model of `requests.Response.ok`: `raise_for_status` raises exactly for
`400 <= status_code < 600`. -/
def HttpResponse.ok (r : HttpResponse) : Bool :=
  !(400 ≤ r.status_code && r.status_code < 600)

/-- Observable events of one client call. -/
inductive Event where
  /-- an `auth_user` call was performed (by `initialize` or `update_token`) with
  these credentials -/
  | login (creds : LoginData)
  /-- an HTTP request was sent to this path -/
  | request (path : String)
  /-- the `on_unauthorized` callback was invoked with this path -/
  | callback (path : String)
deriving Repr, DecidableEq

/-- External world of one call: clock samples and network responses, indexed
by how many samples/requests/logins have happened so far. -/
structure Env where
  timeAt : Nat → Int
  httpResponses : Nat → HttpResponse
  authResults : Nat → AuthResult

/-- Dynamic state threaded through a call: the session plus oracle cursors and
the event trace. -/
structure CState where
  cd : Option ClientData
  timeCount : Nat
  httpCount : Nat
  authCount : Nat
  events : List Event
deriving Repr, DecidableEq

/-- Evaluate `self.is_token_expired()`: reads a fresh clock sample. -/
def checkExpired (env : Env) (s : CState) : Bool × CState :=
  (is_token_expired s.cd (env.timeAt s.timeCount),
   { s with timeCount := s.timeCount + 1 })

/-- Model of `await self.update_token()` inside a call: performs one `auth_user`
(consuming the next auth oracle entry, recording a login event) and applies
`update_token` to the session; a list outcome raises. -/
def update_tokenM (cfg : ClientConfig) (env : Env) (s : CState) :
    Except (List AuthError) Unit × CState :=
  let res := env.authResults s.authCount
  let s1 : CState := { s with
    authCount := s.authCount + 1
    events := s.events ++ [Event.login cfg.login_data] }
  match update_token s1.cd res with
  | .error errs => (.error errs, s1)
  | .ok cd1 => (.ok (), { s1 with cd := cd1 })

/-- Result of `APIClient.get`. -/
inductive GetResult where
  /-- the call returned `response.json()` (carried as the body text) -/
  | payload (body : String)
  /-- the call returned `None` on the `on_unauthorized` path -/
  | noneResult
  /-- the call raised `Exception("Client not initialized")` -/
  | errUninitialized
  /-- the inner `update_token` raised (login returned a list of field errors) -/
  | errAuth (errs : List AuthError)
  /-- the call raised `Exception("Access token is expired or invalid")` -/
  | errUnauthorized
deriving Repr, DecidableEq

/-- Model of `APIClient.get(path, retry)`: the authenticated GET dispatcher.  Checks
initialization, refreshes on expiry, sends the request, and on a 401 either
invokes the callback and returns `None`, or (when `retry`) refreshes once and
re-enters itself with `retry = False`, or raises. -/
def getM (cfg : ClientConfig) (env : Env) (path : String) (retry : Bool)
    (s : CState) : GetResult × CState :=
  match s.cd with
  | none => (.errUninitialized, s)
  | some _ =>
    let (expired, sA) := checkExpired env s
    let step1 : Except (List AuthError) Unit × CState :=
      if expired then update_tokenM cfg env sA else (.ok (), sA)
    match step1 with
    | (.error errs, s1) => (.errAuth errs, s1)
    | (.ok _, s1) =>
      let resp := env.httpResponses s1.httpCount
      let s2 : CState := { s1 with
        httpCount := s1.httpCount + 1
        events := s1.events ++ [Event.request path] }
      if resp.status_code = 401 then
        if cfg.on_unauthorized then
          (.noneResult, { s2 with events := s2.events ++ [Event.callback path] })
        else if h : retry then
          match update_tokenM cfg env s2 with
          | (.error errs, s3) => (.errAuth errs, s3)
          | (.ok _, s3) => getM cfg env path false s3
        else
          (.errUnauthorized, s2)
      else
        (.payload resp.text, s2)
termination_by retry.toNat
decreasing_by simp [h]

/-- Result of the write accessors `upload_homework` / `delete_homework`. -/
inductive WriteResult where
  /-- the upload returned `response.json()` (carried as the body text) -/
  | okPayload (body : String)
  /-- the deletion returned this boolean -/
  | okBool (b : Bool)
  /-- the call raised `Exception("Client not initialized")` -/
  | errUninitialized
  /-- the inner `update_token` raised (login returned a list of field errors) -/
  | errAuth (errs : List AuthError)
  /-- the call raised on a non-ok response, carrying the response body -/
  | errRequestFailed (body : String)
deriving Repr, DecidableEq

/-- Model of `APIClient.upload_homework`: initialization check, expiry refresh, one
POST to `homework/operations/create`; a non-ok response raises with the body
(`response.json()`), otherwise the parsed body is returned.  The multipart
form content does not influence the modelled state and is not carried. -/
def upload_homeworkM (cfg : ClientConfig) (env : Env) (s : CState) :
    WriteResult × CState :=
  match s.cd with
  | none => (.errUninitialized, s)
  | some _ =>
    let (expired, sA) := checkExpired env s
    let step1 : Except (List AuthError) Unit × CState :=
      if expired then update_tokenM cfg env sA else (.ok (), sA)
    match step1 with
    | (.error errs, s1) => (.errAuth errs, s1)
    | (.ok _, s1) =>
      let resp := env.httpResponses s1.httpCount
      let s2 : CState := { s1 with
        httpCount := s1.httpCount + 1
        events := s1.events ++ [Event.request "homework/operations/create"] }
      if resp.ok then (.okPayload resp.text, s2)
      else (.errRequestFailed resp.text, s2)

/-- Model of `APIClient.delete_homework`: initialization check, expiry refresh, one
POST to `homework/operations/delete` with body `{id}`; a non-ok response
raises with `response.text`, otherwise returns `response.text != "null"`. -/
def delete_homeworkM (cfg : ClientConfig) (env : Env) (s : CState) :
    WriteResult × CState :=
  match s.cd with
  | none => (.errUninitialized, s)
  | some _ =>
    let (expired, sA) := checkExpired env s
    let step1 : Except (List AuthError) Unit × CState :=
      if expired then update_tokenM cfg env sA else (.ok (), sA)
    match step1 with
    | (.error errs, s1) => (.errAuth errs, s1)
    | (.ok _, s1) =>
      let resp := env.httpResponses s1.httpCount
      let s2 : CState := { s1 with
        httpCount := s1.httpCount + 1
        events := s1.events ++ [Event.request "homework/operations/delete"] }
      if resp.ok then (.okBool (resp.text ≠ "null"), s2)
      else (.errRequestFailed resp.text, s2)

/-- A session mutating or authenticated operation of the client, as invoked by
a caller; the oracle data each one consumes is packaged with it. -/
inductive ClientOp where
  /-- a call `await client.initialize()` with this login outcome -/
  | initOp (auth : AuthResult)
  /-- a call `await client.update_token()` with this login outcome -/
  | refreshOp (auth : AuthResult)
  /-- a call `await client.get(path)` -/
  | getOp (env : Env) (path : String)
  /-- a call `await client.upload_homework(...)` -/
  | uploadOp (env : Env)
  /-- a call `await client.delete_homework(...)` -/
  | deleteOp (env : Env)

/-- Effect of one operation on `self.client_data`.  A raised exception leaves
the previous `client_data` in place (every `raise` in the source happens
before the corresponding assignment). -/
def runOp (cfg : ClientConfig) (cd : Option ClientData) : ClientOp → Option ClientData
  | .initOp auth =>
      match initializeClient cfg auth with
      | .ok c => some c
      | .error _ => cd
  | .refreshOp auth =>
      match update_token cd auth with
      | .ok cd1 => cd1
      | .error _ => cd
  | .getOp env path => ((getM cfg env path true ⟨cd, 0, 0, 0, []⟩).2).cd
  | .uploadOp env => ((upload_homeworkM cfg env ⟨cd, 0, 0, 0, []⟩).2).cd
  | .deleteOp env => ((delete_homeworkM cfg env ⟨cd, 0, 0, 0, []⟩).2).cd

/-- The access-token field of the Session as an observer sees it: absent when
there is no Session. -/
def sessionTokenField (cd : Option ClientData) : Option String :=
  cd.map ClientData.access_token

/-- The expiry field of the Session as an observer sees it: absent when there
is no Session. -/
def sessionExpiryField (cd : Option ClientData) : Option Int :=
  cd.map ClientData.token_expires_at

/- Concrete inputs used by the witness theorems. -/

def credsW : LoginData := { username := "user", password := "pw" }

def uW : AuthResponse :=
  { access_token := "tok2", refresh_token := "r", expires_in_access := 9000,
    expires_in_refresh := 0, user_type := 1 }

def cfgW : ClientConfig :=
  { login_data := credsW, language := "en", cache := none, access_token := none,
    token_expires_at := none, group_id := none, on_unauthorized := false }

def cfgWcb : ClientConfig := { cfgW with on_unauthorized := true }

def cdW : ClientData :=
  { login_data := credsW, language := "en", cache := none, access_token := "tok",
    token_expires_at := 5000, group_id := none }

/-- the state `cdW` after a refresh that returned `uW`. -/
def cdW2 : ClientData :=
  { cdW with access_token := uW.access_token,
             token_expires_at := uW.expires_in_access * 1000 }

/-- The `ClientData` produced by a fresh login returning `uW` under `cfgW`. -/
def cdInitW : ClientData :=
  { login_data := credsW, language := "en", cache := none, access_token := "tok2",
    token_expires_at := 9000000, group_id := none }

/-- clock at 0 (token `cdW` not yet expired), all requests answered 200. -/
def envWfresh : Env :=
  { timeAt := fun _ => 0, httpResponses := fun _ => ⟨200, "body"⟩,
    authResults := fun _ => Sum.inl uW }

/-- clock at 6000 (token `cdW` expired), all requests answered 200. -/
def envWstale : Env :=
  { timeAt := fun _ => 6000, httpResponses := fun _ => ⟨200, "body"⟩,
    authResults := fun _ => Sum.inl uW }

/-- clock at 0, every request answered 401. -/
def envW401 : Env :=
  { timeAt := fun _ => 0, httpResponses := fun _ => ⟨401, "denied"⟩,
    authResults := fun _ => Sum.inl uW }

/-- clock at 0, every request answered 200 with body text `"null"`. -/
def envWnull : Env :=
  { timeAt := fun _ => 0, httpResponses := fun _ => ⟨200, "null"⟩,
    authResults := fun _ => Sum.inl uW }

def errsW : List AuthError := [{ field := "password", message := "invalid" }]

lemma update_tokenM_fields (cfg : ClientConfig) (env : Env) (s : CState) :
    ((update_tokenM cfg env s).2).httpCount = s.httpCount ∧
    ((update_tokenM cfg env s).2).authCount = s.authCount + 1 ∧
    ((update_tokenM cfg env s).2).events = s.events ++ [Event.login cfg.login_data] := by
  unfold update_tokenM
  dsimp only
  split <;> exact ⟨rfl, rfl, rfl⟩

lemma getM_shape (cfg : ClientConfig) (env : Env) (path : String) :
    ∀ (retry : Bool) (s : CState),
      ((getM cfg env path retry s).2).httpCount ≤ s.httpCount + 2 ∧
      ∃ tail, ((getM cfg env path retry s).2).events = s.events ++ tail := by
  have hbase : ∀ (s : CState),
      ((getM cfg env path false s).2).httpCount ≤ s.httpCount + 1 ∧
      ∃ tail, ((getM cfg env path false s).2).events = s.events ++ tail := by
    intro s
    rw [getM]
    rcases hcd : s.cd with _ | c
    · dsimp only
      exact ⟨by (try dsimp only); omega, [], by simp⟩
    · dsimp only [checkExpired]
      split
      · rename_i errs s1 heq
        split at heq
        · have hf := update_tokenM_fields cfg env { s with timeCount := s.timeCount + 1 }
          rw [heq] at hf
          dsimp at hf
          exact ⟨by (try dsimp only); omega, [Event.login cfg.login_data], by simpa using hf.2.2⟩
        · simp at heq
      · rename_i a s1 heq
        have hs1 : s1.httpCount = s.httpCount ∧
            s1.events = s.events ++ [Event.login cfg.login_data] ∨
            s1 = { s with timeCount := s.timeCount + 1 } := by
          split at heq
          · have hf := update_tokenM_fields cfg env { s with timeCount := s.timeCount + 1 }
            rw [heq] at hf
            dsimp at hf
            exact Or.inl ⟨hf.1, hf.2.2⟩
          · injection heq with h1 h2
            exact Or.inr h2.symm
        try dsimp only
        have hhttp : s1.httpCount = s.httpCount := by
          rcases hs1 with ⟨h1, _⟩ | h1
          · exact h1
          · rw [h1]
        have hev : s1.events = s.events ++ [Event.login cfg.login_data] ∨
            s1.events = s.events := by
          rcases hs1 with ⟨_, h2⟩ | h2
          · exact Or.inl h2
          · rw [h2]; exact Or.inr rfl
        split
        · split
          · refine ⟨by (try dsimp only); omega, ?_⟩
            rcases hev with h2 | h2
            · exact ⟨[Event.login cfg.login_data, Event.request path, Event.callback path],
                by (try dsimp only); simp [h2]⟩
            · exact ⟨[Event.request path, Event.callback path], by (try dsimp only); simp [h2]⟩
          · rw [dif_neg (show ¬(false = true) by decide)]
            refine ⟨by (try dsimp only); omega, ?_⟩
            rcases hev with h2 | h2
            · exact ⟨[Event.login cfg.login_data, Event.request path], by (try dsimp only); simp [h2]⟩
            · exact ⟨[Event.request path], by (try dsimp only); simp [h2]⟩
        · refine ⟨by (try dsimp only); omega, ?_⟩
          rcases hev with h2 | h2
          · exact ⟨[Event.login cfg.login_data, Event.request path], by (try dsimp only); simp [h2]⟩
          · exact ⟨[Event.request path], by (try dsimp only); simp [h2]⟩
  intro retry s
  cases retry with
  | false => exact ⟨Nat.le_trans (hbase s).1 (by omega), (hbase s).2⟩
  | true =>
    rw [getM]
    rcases hcd : s.cd with _ | c
    · dsimp only
      exact ⟨by (try dsimp only); omega, [], by simp⟩
    · dsimp only [checkExpired]
      split
      · rename_i errs s1 heq
        split at heq
        · have hf := update_tokenM_fields cfg env { s with timeCount := s.timeCount + 1 }
          rw [heq] at hf
          dsimp at hf
          exact ⟨by (try dsimp only); omega, [Event.login cfg.login_data], by simpa using hf.2.2⟩
        · simp at heq
      · rename_i a s1 heq
        have hs1 : s1.httpCount = s.httpCount ∧
            s1.events = s.events ++ [Event.login cfg.login_data] ∨
            s1 = { s with timeCount := s.timeCount + 1 } := by
          split at heq
          · have hf := update_tokenM_fields cfg env { s with timeCount := s.timeCount + 1 }
            rw [heq] at hf
            dsimp at hf
            exact Or.inl ⟨hf.1, hf.2.2⟩
          · injection heq with h1 h2
            exact Or.inr h2.symm
        try dsimp only
        have hhttp : s1.httpCount = s.httpCount := by
          rcases hs1 with ⟨h1, _⟩ | h1
          · exact h1
          · rw [h1]
        have hev : s1.events = s.events ++ [Event.login cfg.login_data] ∨
            s1.events = s.events := by
          rcases hs1 with ⟨_, h2⟩ | h2
          · exact Or.inl h2
          · rw [h2]; exact Or.inr rfl
        split
        · split
          · refine ⟨by (try dsimp only); omega, ?_⟩
            rcases hev with h2 | h2
            · exact ⟨[Event.login cfg.login_data, Event.request path, Event.callback path],
                by (try dsimp only); simp [h2]⟩
            · exact ⟨[Event.request path, Event.callback path], by (try dsimp only); simp [h2]⟩
          · -- forced refresh then retry with retry = false
            rw [dif_pos rfl]
            split
            · rename_i errs s3 heq3
              have hf := update_tokenM_fields cfg env
                { s1 with httpCount := s1.httpCount + 1,
                          events := s1.events ++ [Event.request path] }
              rw [heq3] at hf
              dsimp at hf
              refine ⟨by (try dsimp only); omega, ?_⟩
              rcases hev with h2 | h2
              · exact ⟨[Event.login cfg.login_data, Event.request path, Event.login cfg.login_data],
                  by rw [hf.2.2, h2]; simp⟩
              · exact ⟨[Event.request path, Event.login cfg.login_data],
                  by rw [hf.2.2, h2]; simp⟩
            · rename_i a3 s3 heq3
              have hf := update_tokenM_fields cfg env
                { s1 with httpCount := s1.httpCount + 1,
                          events := s1.events ++ [Event.request path] }
              rw [heq3] at hf
              dsimp at hf
              obtain ⟨hb1, hb2⟩ := hbase s3
              refine ⟨by (try dsimp only); omega, ?_⟩
              obtain ⟨tail, htail⟩ := hb2
              rcases hev with h2 | h2
              · exact ⟨[Event.login cfg.login_data, Event.request path, Event.login cfg.login_data]
                    ++ tail, by simp [htail, hf.2.2, h2]⟩
              · exact ⟨[Event.request path, Event.login cfg.login_data] ++ tail,
                  by simp [htail, hf.2.2, h2]⟩
        · refine ⟨by (try dsimp only); omega, ?_⟩
          rcases hev with h2 | h2
          · exact ⟨[Event.login cfg.login_data, Event.request path], by (try dsimp only); simp [h2]⟩
          · exact ⟨[Event.request path], by (try dsimp only); simp [h2]⟩

/-- C7: a successful refresh overwrites exactly the access token and the
expiry of the Session; login data, language, cache and cached group id are
unchanged. -/
theorem C7_update_token_frame (c : ClientData) (u : AuthResponse) :
    update_token (some c) (Sum.inl u) =
      Except.ok (some { login_data := c.login_data, language := c.language,
                        cache := c.cache, access_token := u.access_token,
                        token_expires_at := u.expires_in_access * 1000,
                        group_id := c.group_id }) := rfl

/-- C8: `is_token_expired` is true exactly when no Session exists or the
current time (in milliseconds) is at least the stored expiry; moreover the
dispatcher evaluates it on a fresh clock sample at every check (the clock
cursor advances by one per evaluation). -/
theorem C8_is_token_expired_iff (cd : Option ClientData) (now_ms : Int) :
    (is_token_expired cd now_ms = true ↔
      cd = none ∨ ∃ c, cd = some c ∧ now_ms ≥ c.token_expires_at) ∧
    ∀ (env : Env) (s : CState),
      checkExpired env s =
        (is_token_expired s.cd (env.timeAt s.timeCount),
         { s with timeCount := s.timeCount + 1 }) := by
  refine ⟨?_, fun env s => rfl⟩
  cases cd with
  | none => simp [is_token_expired]
  | some c => simp [is_token_expired]

/-- C1 counterexample: a login at current time 1000000 ms handing back
`expires_in_access = 9000` stores the expiry 9000000, which is the server
value converted to milliseconds, not "now + lifetime" = 10000000. -/
theorem C1_counterexample :
    initializeClient cfgW (Sum.inl uW) = Except.ok cdInitW ∧
    cdInitW.token_expires_at = uW.expires_in_access * 1000 ∧
    cdInitW.token_expires_at ≠ 1000000 + uW.expires_in_access * 1000 := by
  refine ⟨rfl, by decide, by decide⟩

/-- C1 amended: on every successful login (initialize without a usable
pre-supplied token, and update_token) the stored expiry equals the
server-provided `expires_in_access` value multiplied by 1000 (converted to
milliseconds), with no addition of the current time. -/
theorem C1_expiry_is_server_value_ms (cfg : ClientConfig) (u : AuthResponse)
    (c cd : ClientData)
    (hlogin : (strTruthy cfg.access_token && intTruthy cfg.token_expires_at) = false)
    (hinit : initializeClient cfg (Sum.inl u) = Except.ok cd) :
    cd.token_expires_at = u.expires_in_access * 1000 ∧
    update_token (some c) (Sum.inl u) =
      Except.ok (some { c with access_token := u.access_token,
                               token_expires_at := u.expires_in_access * 1000 }) := by
  refine ⟨?_, rfl⟩
  unfold initializeClient at hinit
  rw [hlogin] at hinit
  simp at hinit
  rw [← hinit]

theorem C1_expiry_is_server_value_ms_witness :
    cdInitW.token_expires_at = uW.expires_in_access * 1000 ∧
    update_token (some cdW) (Sum.inl uW) =
      Except.ok (some { cdW with access_token := uW.access_token,
                                 token_expires_at := uW.expires_in_access * 1000 }) :=
  C1_expiry_is_server_value_ms cfgW uW cdW cdInitW (by decide) rfl

/-- C2: on an initialized client with no callback, a first 401 triggers one
forced refresh and exactly one retry of the same path; a second 401 raises the
unauthorized error; and no execution of the dispatcher ever sends more than
two HTTP requests. -/
theorem C2_single_retry_on_401 (cfg : ClientConfig) (env : Env) (path : String)
    (cd : ClientData) (u : AuthResponse)
    (hcb : cfg.on_unauthorized = false)
    (hexp : is_token_expired (some cd) (env.timeAt 0) = false)
    (hauth : env.authResults 0 = Sum.inl u)
    (hexp2 : is_token_expired
        (some { cd with access_token := u.access_token,
                        token_expires_at := u.expires_in_access * 1000 })
        (env.timeAt 1) = false)
    (h401a : (env.httpResponses 0).status_code = 401)
    (h401b : (env.httpResponses 1).status_code = 401) :
    getM cfg env path true ⟨some cd, 0, 0, 0, []⟩ =
      (GetResult.errUnauthorized,
       ⟨some { cd with access_token := u.access_token,
                       token_expires_at := u.expires_in_access * 1000 },
        2, 2, 1,
        [Event.request path, Event.login cfg.login_data, Event.request path]⟩) ∧
    ∀ (cfg2 : ClientConfig) (env2 : Env) (path2 : String) (retry : Bool)
      (s : CState),
      ((getM cfg2 env2 path2 retry s).2).httpCount ≤ s.httpCount + 2 := by
  constructor
  · rw [getM]
    simp [checkExpired, update_tokenM, update_token, hexp, hauth, hcb, h401a]
    rw [getM]
    simp [checkExpired, update_tokenM, update_token, hexp2, h401b, hcb]
  · intro cfg2 env2 path2 retry s
    exact (getM_shape cfg2 env2 path2 retry s).1

theorem C2_single_retry_on_401_witness :
    getM cfgW envW401 "pth" true ⟨some cdW, 0, 0, 0, []⟩ =
      (GetResult.errUnauthorized,
       ⟨some cdW2, 2, 2, 1,
        [Event.request "pth", Event.login credsW, Event.request "pth"]⟩) :=
  (C2_single_retry_on_401 cfgW envW401 "pth" cdW uW rfl (by decide) rfl
    (by decide) rfl rfl).1

/-- C3: a 401 with the callback configured invokes the callback exactly once
with the requested path and the call returns `None`, with no refresh and no
retry caused by the 401 (the only refresh that may occur is the pre-send
expiry refresh). -/
theorem C3_callback_on_401 (cfg : ClientConfig) (env : Env) (path : String)
    (cd : ClientData) (u : AuthResponse)
    (hcb : cfg.on_unauthorized = true)
    (h401 : (env.httpResponses 0).status_code = 401) :
    (is_token_expired (some cd) (env.timeAt 0) = false →
      getM cfg env path true ⟨some cd, 0, 0, 0, []⟩ =
        (GetResult.noneResult,
         ⟨some cd, 1, 1, 0, [Event.request path, Event.callback path]⟩)) ∧
    (is_token_expired (some cd) (env.timeAt 0) = true →
     env.authResults 0 = Sum.inl u →
      getM cfg env path true ⟨some cd, 0, 0, 0, []⟩ =
        (GetResult.noneResult,
         ⟨some { cd with access_token := u.access_token,
                         token_expires_at := u.expires_in_access * 1000 },
          1, 1, 1,
          [Event.login cfg.login_data, Event.request path,
           Event.callback path]⟩)) := by
  constructor
  · intro hexp
    rw [getM]
    simp [checkExpired, hexp, h401, hcb]
  · intro hexp hauth
    rw [getM]
    simp [checkExpired, update_tokenM, update_token, hexp, hauth, h401, hcb]

theorem C3_callback_on_401_witness :
    getM cfgWcb envW401 "pth" true ⟨some cdW, 0, 0, 0, []⟩ =
      (GetResult.noneResult,
       ⟨some cdW, 1, 1, 0, [Event.request "pth", Event.callback "pth"]⟩) :=
  (C3_callback_on_401 cfgWcb envW401 "pth" cdW uW rfl rfl).1 (by decide)

/-- C4: when login during initialize fails with the provider error array the
call raises carrying those errors and no Session is produced, and any
authenticated GET on a client whose Session is absent fails with the
uninitialized-client error without sending a request (the state, including
the event trace, is untouched). -/
theorem C4_login_failure_no_session (cfg : ClientConfig) (errs : List AuthError)
    (env : Env) (path : String) (retry : Bool) (s : CState)
    (hlogin : (strTruthy cfg.access_token && intTruthy cfg.token_expires_at)
        = false)
    (hs : s.cd = none) :
    initializeClient cfg (Sum.inr errs) = Except.error errs ∧
    getM cfg env path retry s = (GetResult.errUninitialized, s) := by
  constructor
  · unfold initializeClient
    rw [hlogin]
    simp
  · rw [getM]
    simp [hs]

theorem C4_login_failure_no_session_witness :
    initializeClient cfgW (Sum.inr errsW) = Except.error errsW ∧
    getM cfgW envWfresh "pth" true ⟨none, 0, 0, 0, []⟩ =
      (GetResult.errUninitialized, ⟨none, 0, 0, 0, []⟩) :=
  C4_login_failure_no_session cfgW errsW envWfresh "pth" true
    ⟨none, 0, 0, 0, []⟩ (by decide) rfl

/-- C5: after any sequence of client operations the Session is either absent
(and then every authenticated call fails with the uninitialized error, sending
nothing) or present with both the access token and the expiry set; no
reachable state has only one of the two. -/
theorem C5_session_invariant (cfg : ClientConfig) (ops : List ClientOp) :
    (List.foldl (runOp cfg) none ops = none →
      ∀ (env : Env) (path : String) (retry : Bool),
        getM cfg env path retry ⟨none, 0, 0, 0, []⟩ =
          (GetResult.errUninitialized, ⟨none, 0, 0, 0, []⟩) ∧
        upload_homeworkM cfg env ⟨none, 0, 0, 0, []⟩ =
          (WriteResult.errUninitialized, ⟨none, 0, 0, 0, []⟩) ∧
        delete_homeworkM cfg env ⟨none, 0, 0, 0, []⟩ =
          (WriteResult.errUninitialized, ⟨none, 0, 0, 0, []⟩)) ∧
    ((sessionTokenField (List.foldl (runOp cfg) none ops) = none ∧
      sessionExpiryField (List.foldl (runOp cfg) none ops) = none) ∨
     (sessionTokenField (List.foldl (runOp cfg) none ops) ≠ none ∧
      sessionExpiryField (List.foldl (runOp cfg) none ops) ≠ none)) := by
  constructor
  · intro _ env path retry
    refine ⟨?_, rfl, rfl⟩
    rw [getM]
  · cases h : List.foldl (runOp cfg) none ops with
    | none =>
        exact Or.inl ⟨by simp [sessionTokenField, h],
                      by simp [sessionExpiryField, h]⟩
    | some c =>
        exact Or.inr ⟨by simp [sessionTokenField, h],
                      by simp [sessionExpiryField, h]⟩

theorem C5_session_invariant_witness :
    getM cfgW envWfresh "pth" true ⟨none, 0, 0, 0, []⟩ =
      (GetResult.errUninitialized, ⟨none, 0, 0, 0, []⟩) ∧
    upload_homeworkM cfgW envWfresh ⟨none, 0, 0, 0, []⟩ =
      (WriteResult.errUninitialized, ⟨none, 0, 0, 0, []⟩) ∧
    delete_homeworkM cfgW envWfresh ⟨none, 0, 0, 0, []⟩ =
      (WriteResult.errUninitialized, ⟨none, 0, 0, 0, []⟩) :=
  (C5_session_invariant cfgW []).1 rfl envWfresh "pth" true

/-- C9: a delete-homework call whose response is successful returns exactly
the boolean "body text differs from the literal string null"; in particular a
provider body of "null" makes it return false. -/
theorem C9_delete_null_body_false (cfg : ClientConfig) (env : Env)
    (cd : ClientData)
    (hexp : is_token_expired (some cd) (env.timeAt 0) = false)
    (hok : (env.httpResponses 0).ok = true) :
    delete_homeworkM cfg env ⟨some cd, 0, 0, 0, []⟩ =
      (WriteResult.okBool (decide ((env.httpResponses 0).text ≠ "null")),
       ⟨some cd, 1, 1, 0, [Event.request "homework/operations/delete"]⟩) ∧
    ((env.httpResponses 0).text = "null" →
      (delete_homeworkM cfg env ⟨some cd, 0, 0, 0, []⟩).1 =
        WriteResult.okBool false) := by
  constructor
  · simp [delete_homeworkM, checkExpired, hexp, hok]
  · intro ht
    simp [delete_homeworkM, checkExpired, hexp, hok, ht]

theorem C9_delete_null_body_false_witness :
    (delete_homeworkM cfgW envWnull ⟨some cdW, 0, 0, 0, []⟩).1 =
      WriteResult.okBool false :=
  (C9_delete_null_body_false cfgW envWnull cdW (by decide) (by decide)).2 rfl

/-- C10: on any non-ok response (401 included, since 401 is not ok) the write
accessors raise immediately carrying the response body: exactly one request is
sent, no refresh-and-retry happens and the callback is never invoked, whatever
the configuration. -/
theorem C10_write_failure_raises (cfg : ClientConfig) (env : Env)
    (cd : ClientData)
    (hexp : is_token_expired (some cd) (env.timeAt 0) = false)
    (hbad : (env.httpResponses 0).ok = false) :
    upload_homeworkM cfg env ⟨some cd, 0, 0, 0, []⟩ =
      (WriteResult.errRequestFailed (env.httpResponses 0).text,
       ⟨some cd, 1, 1, 0, [Event.request "homework/operations/create"]⟩) ∧
    delete_homeworkM cfg env ⟨some cd, 0, 0, 0, []⟩ =
      (WriteResult.errRequestFailed (env.httpResponses 0).text,
       ⟨some cd, 1, 1, 0, [Event.request "homework/operations/delete"]⟩) ∧
    ∀ (r : HttpResponse), r.status_code = 401 → r.ok = false := by
  refine ⟨?_, ?_, ?_⟩
  · simp [upload_homeworkM, checkExpired, hexp, hbad]
  · simp [delete_homeworkM, checkExpired, hexp, hbad]
  · intro r h
    simp [HttpResponse.ok, h]

theorem C10_write_failure_raises_witness :
    upload_homeworkM cfgW envW401 ⟨some cdW, 0, 0, 0, []⟩ =
      (WriteResult.errRequestFailed "denied",
       ⟨some cdW, 1, 1, 0, [Event.request "homework/operations/create"]⟩) ∧
    delete_homeworkM cfgW envW401 ⟨some cdW, 0, 0, 0, []⟩ =
      (WriteResult.errRequestFailed "denied",
       ⟨some cdW, 1, 1, 0, [Event.request "homework/operations/delete"]⟩) :=
  ⟨(C10_write_failure_raises cfgW envW401 cdW (by decide) (by decide)).1,
   (C10_write_failure_raises cfgW envW401 cdW (by decide) (by decide)).2.1⟩

/-- C6: on an initialized client, every authenticated call (GET dispatch,
homework upload, homework delete) made while the token is expired performs
exactly one refresh before the HTTP request is sent (the trace starts with one
login followed by the request), and no pre-send refresh happens when the token
is not expired (the trace starts directly with the request). -/
theorem C6_refresh_before_send (cfg : ClientConfig) (env : Env) (path : String)
    (cd : ClientData) (u : AuthResponse) :
    (is_token_expired (some cd) (env.timeAt 0) = false →
      (∃ rest, ((getM cfg env path true ⟨some cd, 0, 0, 0, []⟩).2).events =
          Event.request path :: rest) ∧
      ((upload_homeworkM cfg env ⟨some cd, 0, 0, 0, []⟩).2).events =
        [Event.request "homework/operations/create"] ∧
      ((delete_homeworkM cfg env ⟨some cd, 0, 0, 0, []⟩).2).events =
        [Event.request "homework/operations/delete"]) ∧
    (is_token_expired (some cd) (env.timeAt 0) = true →
     env.authResults 0 = Sum.inl u →
      (∃ rest, ((getM cfg env path true ⟨some cd, 0, 0, 0, []⟩).2).events =
          Event.login cfg.login_data :: Event.request path :: rest) ∧
      ((upload_homeworkM cfg env ⟨some cd, 0, 0, 0, []⟩).2).events =
        [Event.login cfg.login_data,
         Event.request "homework/operations/create"] ∧
      ((delete_homeworkM cfg env ⟨some cd, 0, 0, 0, []⟩).2).events =
        [Event.login cfg.login_data,
         Event.request "homework/operations/delete"]) := by
  constructor
  · intro hexp
    refine ⟨?_, ?_, ?_⟩
    · rw [getM]
      simp only [checkExpired, hexp]
      by_cases h401 : (env.httpResponses 0).status_code = 401
      · by_cases hcb : cfg.on_unauthorized = true
        · simp [h401, hcb]
        · rcases hu : update_tokenM cfg env
              ⟨some cd, 1, 1, 0, [Event.request path]⟩ with ⟨r, s3⟩
          have hf := update_tokenM_fields cfg env
              ⟨some cd, 1, 1, 0, [Event.request path]⟩
          rw [hu] at hf
          dsimp at hf
          cases r with
          | error errs =>
              simp [h401, hcb, hu]
              exact ⟨[Event.login cfg.login_data], by simp [hf.2.2]⟩
          | ok a =>
              obtain ⟨tail, htail⟩ := (getM_shape cfg env path false s3).2
              simp [h401, hcb, hu]
              exact ⟨[Event.login cfg.login_data] ++ tail,
                     by simp [htail, hf.2.2]⟩
      · simp [h401]
    · by_cases hok : (env.httpResponses 0).ok = true <;>
        simp [upload_homeworkM, checkExpired, hexp, hok]
    · by_cases hok : (env.httpResponses 0).ok = true <;>
        simp [delete_homeworkM, checkExpired, hexp, hok]
  · intro hexp hauth
    refine ⟨?_, ?_, ?_⟩
    · rw [getM]
      simp only [checkExpired, hexp, update_tokenM, update_token, hauth]
      by_cases h401 : (env.httpResponses 0).status_code = 401
      · by_cases hcb : cfg.on_unauthorized = true
        · simp [h401, hcb]
        · rcases hauth2 : env.authResults 1 with u2 | errs2
          · obtain ⟨tail, htail⟩ := (getM_shape cfg env path false
              ⟨some { cd with access_token := u2.access_token,
                              token_expires_at := u2.expires_in_access * 1000 },
               1, 1, 2,
               [Event.login cfg.login_data, Event.request path,
                Event.login cfg.login_data]⟩).2
            simp [h401, hcb, hauth2]
            exact ⟨Event.login cfg.login_data :: tail, by simp [htail]⟩
          · simp [h401, hcb, hauth2]
      · simp [h401]
    · by_cases hok : (env.httpResponses 0).ok = true <;>
        simp [upload_homeworkM, checkExpired, update_tokenM, update_token,
              hexp, hauth, hok]
    · by_cases hok : (env.httpResponses 0).ok = true <;>
        simp [delete_homeworkM, checkExpired, update_tokenM, update_token,
              hexp, hauth, hok]

theorem C6_refresh_before_send_witness :
    ((∃ rest, ((getM cfgW envWfresh "pth" true ⟨some cdW, 0, 0, 0, []⟩).2).events
        = Event.request "pth" :: rest) ∧
     ((upload_homeworkM cfgW envWfresh ⟨some cdW, 0, 0, 0, []⟩).2).events =
        [Event.request "homework/operations/create"] ∧
     ((delete_homeworkM cfgW envWfresh ⟨some cdW, 0, 0, 0, []⟩).2).events =
        [Event.request "homework/operations/delete"]) ∧
    ((∃ rest, ((getM cfgW envWstale "pth" true ⟨some cdW, 0, 0, 0, []⟩).2).events
        = Event.login credsW :: Event.request "pth" :: rest) ∧
     ((upload_homeworkM cfgW envWstale ⟨some cdW, 0, 0, 0, []⟩).2).events =
        [Event.login credsW, Event.request "homework/operations/create"] ∧
     ((delete_homeworkM cfgW envWstale ⟨some cdW, 0, 0, 0, []⟩).2).events =
        [Event.login credsW, Event.request "homework/operations/delete"]) :=
  ⟨(C6_refresh_before_send cfgW envWfresh "pth" cdW uW).1 (by decide),
   (C6_refresh_before_send cfgW envWstale "pth" cdW uW).2 (by decide) rfl⟩
